import Mathlib

/-!
Verification of the aws-advisor repository's core: agent construction and
question handling (`src/agents/base.py`, `src/agents/aws_consultant.py`),
MCP server configuration and AWS-profile resolution (`src/agents/config.py`,
`src/main.py`), the provider-session lifecycle around the nested `with`
block in `main`, the conversation recorder (`ConversationManager`), and the
interactive loop (`interactive_mode`).

Conventions of the shallow embedding:
- Python `s.strip()` is modelled by `pyStrip` (drop whitespace from both
  ends) and `s.lower()` by `pyLower` (character-wise lowercasing); both are
  written as structural recursion over the string's character list.
- A Python value raising an exception is modelled as `Except`: the exception
  class and message is the `.error` payload.
- Text printed to stdout that a claim cares about is returned alongside the
  result as a `List String` of printed lines.
- The black-box backend (the Strands `Agent` object, `self._agent(question)`)
  is modelled as a function `String → Except String String`: a call either
  produces an answer string or raises a failure whose text is the payload.
-/

namespace AwsAdvisor

/-- Python `s.strip()`: remove leading and trailing whitespace. -/
def pyStrip (s : String) : String :=
  String.mk
    (((s.data.dropWhile Char.isWhitespace).reverse.dropWhile
        Char.isWhitespace).reverse)

/-- Python `s.lower()` (the strings compared in this program are ASCII). -/
def pyLower (s : String) : String :=
  String.mk (s.data.map Char.toLower)

/-- An MCP tool, opaque descriptor passed through unmodified. -/
structure Tool where
  name : String
deriving DecidableEq, Repr

/-- The model argument of `AWSConsultantAgent.__init__`: `None` is modelled
by `Option.none`; an `OllamaModel` instance by `ollamaModel`. -/
inductive Model where
  | ollamaModel (host model_id : String) (max_tokens : Nat)
      (keep_alive : String)
deriving DecidableEq, Repr

/-- Python `self.model.__class__.__name__`. -/
def Model.className : Model → String
  | .ollamaModel _ _ _ _ => "OllamaModel"

/-- Exceptions raised by the agent layer itself (`raise ValueError(...)` in
`base.py`).  The spec's taxonomy calls this category `ConfigError`. -/
inductive PyError where
  | valueError (msg : String)
deriving DecidableEq, Repr

/-- Blankness test of `base.py` line 40: `if not system_prompt or not system_prompt.strip()`.
`not s` for a Python string is `s = ""`; `not s.strip()` is
`s.strip() = ""`. -/
def isBlank (s : String) : Prop :=
  s = "" ∨ pyStrip s = ""

instance (s : String) : Decidable (isBlank s) := by
  unfold isBlank; infer_instance

/-- Python `tools or []` (`base.py` line 43): `None` and the empty list are
falsy and give `[]`; a non-empty list is returned unchanged. -/
def pyToolsOr (tools : Option (List Tool)) : List Tool :=
  match tools with
  | none => []
  | some [] => []
  | some (t :: ts) => t :: ts

/-- The constructed `AWSConsultantAgent`: fields set by `__init__`
(`base.py` lines 40-46).  The underlying `self._agent` is the black-box
backend and is modelled separately as a function argument to `ask`. -/
structure AWSConsultantAgent where
  system_prompt : String
  tools : List Tool
  model : Option Model
deriving DecidableEq, Repr

/-- Embedding of `AWSConsultantAgent.__init__` (`base.py` lines 26-46): validates the
system prompt, normalises `tools` with `tools or []`, stores the model. -/
def AWSConsultantAgent.init (system_prompt : String)
    (tools : Option (List Tool)) (model : Option Model) :
    Except PyError AWSConsultantAgent :=
  if isBlank system_prompt then
    .error (.valueError "system_prompt cannot be empty")
  else
    .ok { system_prompt := system_prompt, tools := pyToolsOr tools,
          model := model }

/-- The error marker of `AWSConsultantAgent.ask` (`base.py` line 86). -/
def errorMarker : String := "Error processing request: "

/-- Embedding of `AWSConsultantAgent.ask` (`base.py` lines 67-89).  `agent` is the
black-box `self._agent`.  Returns the result (an exception for a blank
question, the answer or the formatted error string otherwise) paired with
the lines printed. -/
def AWSConsultantAgent.ask (agent : String → Except String String)
    (question : String) : Except PyError String × List String :=
  if isBlank question then
    (.error (.valueError "question cannot be empty"), [])
  else
    match agent question with
    | .ok response => (.ok response, [])
    | .error e =>
        let error_msg := errorMarker ++ e
        (.ok error_msg, ["❌ " ++ error_msg])

/-- Embedding of `AWSConsultant.consult` (`aws_consultant.py` lines 50-60): delegates to
`ask` unchanged. -/
def AWSConsultant.consult (agent : String → Except String String)
    (user_request : String) : Except PyError String × List String :=
  AWSConsultantAgent.ask agent user_request

/-- The `model_info` expression of `AWSConsultantAgent.__repr__`
(`base.py` lines 93-96). -/
def modelInfo (model : Option Model) : String :=
  match model with
  | some m => "model=" ++ m.className
  | none => "model=Anthropic"

/-- Embedding of `AWSConsultantAgent.__repr__` (`base.py` lines 91-97). -/
def AWSConsultantAgent.reprStr (a : AWSConsultantAgent) : String :=
  "AWSConsultantAgent(" ++ modelInfo a.model ++ ", tools="
    ++ toString a.tools.length ++ ")"

/-- Embedding of `AWSConsultantAgent.__str__` (`base.py` lines 99-105). -/
def AWSConsultantAgent.strStr (a : AWSConsultantAgent) : String :=
  let model_name :=
    match a.model with
    | some m => m.className
    | none => "Anthropic"
  "AWS Consultant Agent (" ++ model_name ++ ") with "
    ++ toString a.tools.length ++ " MCP tool(s)"

/-! ## Configuration (`src/agents/config.py`, `src/main.py` line 305) -/

/-- One MCP server configuration (command, args, env) as built by
`get_mcp_servers_with_profile`. -/
structure ServerConfig where
  command : String
  args : List String
  env : List (String × String)
deriving DecidableEq, Repr

/-- Embedding of `get_mcp_servers_with_profile` (`config.py` lines 28-58), the dictionary
in its literal key order.  Only the `pricing` entry's environment receives
`AWS_PROFILE`. -/
def get_mcp_servers_with_profile (aws_profile : String) :
    List (String × ServerConfig) :=
  [("pricing",
    { command := "uvx",
      args := ["awslabs.aws-pricing-mcp-server@latest"],
      env := [("AWS_PROFILE", aws_profile),
              ("FASTMCP_LOG_LEVEL", "ERROR")] }),
   ("cdk",
    { command := "uvx",
      args := ["awslabs.cdk-mcp-server@latest"],
      env := [("FASTMCP_LOG_LEVEL", "ERROR")] }),
   ("documentation",
    { command := "uvx",
      args := ["awslabs.aws-documentation-mcp-server@latest"],
      env := [("FASTMCP_LOG_LEVEL", "ERROR")] }),
   ("terraform",
    { command := "uvx",
      args := ["awslabs.terraform-mcp-server@latest"],
      env := [("FASTMCP_LOG_LEVEL", "ERROR")] })]

/-- Profile resolution of `main.py` line 305:
`aws_profile = args.aws_profile or os.environ.get("AWS_PROFILE", "default")`.
`flag` is `args.aws_profile` (`None` when the flag is absent); `envProfile`
is the `AWS_PROFILE` environment variable (`none` when unset).  Python `or`
falls through when the left side is falsy, i.e. `None` or `""`. -/
def resolveAwsProfile (flag : Option String) (envProfile : Option String) :
    String :=
  match flag with
  | some f => if f = "" then envProfile.getD "default" else f
  | none => envProfile.getD "default"

/-- Registry aggregation of `main.py` lines 374-380: `all_tools` is the concatenation of the four
per-server tool lists, in the acquisition order of the `with` statement. -/
def all_tools (documentation_tools terraform_tools cdk_tools pricing_tools :
    List Tool) : List Tool :=
  documentation_tools ++ terraform_tools ++ cdk_tools ++ pricing_tools

/-! ## Provider-session lifecycle (`src/main.py` lines 40-77 and 345-381)

`main` opens the four `MCPClientManager`s in one nested `with` statement
and then calls `list_tools` on each inside the body.  Python's `with`
semantics: managers are entered left to right; on any exit from the body,
or on a failure entering a later manager, the already-entered managers are
exited in reverse order.  We model each provider by whether `__enter__`
succeeds and what `list_tools` returns, and record the enter/exit events
the run produces. -/

/-- The externally observable behaviour of one MCP server subprocess for a
given run: whether its `__enter__` (subprocess start) succeeds and what its
`list_tools` call returns. -/
structure ProviderSpec where
  name : String
  startOk : Bool
  tools : Except String (List Tool)
deriving Repr

/-- A lifecycle event of a provider session. -/
inductive Event where
  | started (name : String)
  | stopped (name : String)
deriving DecidableEq, Repr

/-- The body of the `with` statement (`main.py` lines 356-368): call
`list_tools` on every provider in order; the first failure propagates. -/
def listAllTools : List ProviderSpec → Except String (List (String × List Tool))
  | [] => .ok []
  | p :: rest =>
    match p.tools with
    | .error e => .error e
    | .ok ts =>
      match listAllTools rest with
      | .error e => .error e
      | .ok acc => .ok ((p.name, ts) :: acc)

/-- Nested `with` acquisition over the provider list `ps`, with the body
enumerating the tools of all providers `all`.  Entering a provider wraps
the inner run between its `started` and `stopped` events (the `stopped`
event occurs on every exit path, success or exception, per `__exit__`
semantics); a failed `__enter__` produces no event for that provider and
unwinds the outer frames. -/
def nestWith (all : List ProviderSpec) :
    List ProviderSpec → List Event × Except String (List (String × List Tool))
  | [] => ([], listAllTools all)
  | p :: rest =>
    if p.startOk then
      let inner := nestWith all rest
      (Event.started p.name :: inner.1 ++ [Event.stopped p.name], inner.2)
    else
      ([], .error ("failed to start " ++ p.name))

/-- The acquisition phase of `main` (`main.py` lines 345-368) for a given
provider behaviour list: the event trace and the outcome. -/
def runAcquisition (ps : List ProviderSpec) :
    List Event × Except String (List (String × List Tool)) :=
  nestWith ps ps

/-- Names of the providers whose `started` event appears in a trace. -/
def startedNames (evs : List Event) : List String :=
  evs.filterMap fun e =>
    match e with
    | .started n => some n
    | .stopped _ => none

/-- Names of the providers whose `stopped` event appears in a trace. -/
def stoppedNames (evs : List Event) : List String :=
  evs.filterMap fun e =>
    match e with
    | .started _ => none
    | .stopped n => some n

/-- The prefix of providers whose `__enter__` is reached and succeeds. -/
def enteredProviders : List ProviderSpec → List String
  | [] => []
  | p :: rest => if p.startOk then p.name :: enteredProviders rest else []

/-- The failure scenario of the spec: "documentation" and "terraform" start
and enumerate fine, "cdk" fails to start. -/
def cdkFailureScenario : List ProviderSpec :=
  [⟨"documentation", true, .ok [⟨"d1"⟩, ⟨"d2"⟩]⟩,
   ⟨"terraform", true, .ok [⟨"t1"⟩, ⟨"t2"⟩, ⟨"t3"⟩]⟩,
   ⟨"cdk", false, .ok []⟩,
   ⟨"pricing", true, .ok []⟩]

/-! ## Conversation recorder (`src/main.py` lines 84-146) -/

/-- One entry of `ConversationManager.history` as pushed by
`add_exchange` (`main.py` lines 92-98). -/
structure Exchange where
  user : String
  assistant : String
  timestamp : Nat
deriving DecidableEq, Repr

/-- Embedding of `add_exchange`: appends the exchange to the history. -/
def add_exchange (history : List Exchange) (user_input assistant_response :
    String) (now : Nat) : List Exchange :=
  history ++ [{ user := user_input, assistant := assistant_response,
                timestamp := now }]

/-- The banner line `"=" * 80`. -/
def eq80 : String := String.mk (List.replicate 80 '=')

/-- The transcript header (`main.py` lines 128-130). -/
def headerText : String :=
  eq80 ++ "\n" ++ "AWS INFRASTRUCTURE ADVISOR - CONSULTATION LOG\n"
    ++ eq80 ++ "\n\n"

/-- The transcript footer (`main.py` lines 140-142). -/
def footerText : String :=
  "\n" ++ eq80 ++ "\n" ++ "END OF CONSULTATION\n" ++ eq80 ++ "\n"

/-- One exchange block of the transcript (`main.py` lines 132-137),
numbered from 1. -/
def exchangeBlock (i : Nat) (e : Exchange) : String :=
  "\n" ++ eq80 ++ "\n" ++ "Exchange " ++ toString i ++ "\n" ++ eq80
    ++ "\n\n" ++ "USER:\n" ++ e.user ++ "\n\n" ++ "CONSULTANT:\n"
    ++ e.assistant ++ "\n"

/-- The `for i, exchange in enumerate(self.history, 1)` loop. -/
def exchangeBlocks : Nat → List Exchange → String
  | _, [] => ""
  | i, e :: rest => exchangeBlock i e ++ exchangeBlocks (i + 1) rest

/-- The full file content written by `save_conversation`. -/
def transcriptContent (history : List Exchange) : String :=
  headerText ++ exchangeBlocks 1 history ++ footerText

/-- What a `save_conversation` call that did not raise produced: the return
value (`some path` or `none`), the file written (if any), and warning lines
printed. -/
structure SaveResult where
  returned : Option String
  written : Option String
  warnings : List String
deriving DecidableEq, Repr

/-- Embedding of `ConversationManager.save_conversation` (`main.py` lines 101-146).
`mkdirResult` models `Path("outputs").mkdir(exist_ok=True)` — executed
BEFORE the `try` block, so its failure propagates as an exception
(`.error`).  `writeResult` models the `open`/`write` sequence inside the
`try` block — its failure is caught, a warning is printed, and `None` is
returned. -/
def save_conversation (history : List Exchange) (filename : Option String)
    (now : Nat) (mkdirResult : Except String Unit)
    (writeResult : Except String Unit) : Except String SaveResult :=
  if history.isEmpty then
    .ok { returned := none, written := none, warnings := [] }
  else
    match mkdirResult with
    | .error e => .error e
    | .ok _ =>
      let fname :=
        match filename with
        | none => "aws_consultation_" ++ toString now ++ ".txt"
        | some f => f
      let output_file := "outputs/" ++ fname
      match writeResult with
      | .ok _ =>
        .ok { returned := some output_file,
              written := some (transcriptContent history), warnings := [] }
      | .error e =>
        .ok { returned := none, written := none,
              warnings := ["\n⚠️  Warning: Could not save conversation: "
                            ++ e] }

/-! ## Interactive loop (`src/main.py` lines 180-232) -/

/-- The exit-command list of `interactive_mode` (`main.py` line 205). -/
def exitTokens : List String := ["exit", "quit", "bye", "q"]

/-- What one loop iteration does with an input line. -/
inductive StepAction where
  | exitLoop
  | reprompt
  | converse (question response : String)
deriving DecidableEq, Repr

/-- One iteration of the interactive loop on a raw input line
(`main.py` lines 202-220): strip, exit-token check, empty check, then a
`consult` call whose result is echoed and appended.  `consult` is the
consultant's total behaviour (the loop only reaches it with a non-blank
question, and `ask` returns rather than raises on backend failure). -/
def interactiveStep (consult : String → String) (raw : String) : StepAction :=
  let user_input := pyStrip raw
  if pyLower user_input ∈ exitTokens then .exitLoop
  else if user_input = "" then .reprompt
  else .converse user_input (consult user_input)

/-- One event at the input prompt: a line of input, or Ctrl-C
(`KeyboardInterrupt`, `main.py` lines 222-224, which breaks the loop). -/
inductive InputEvent where
  | line (s : String)
  | interrupt
deriving DecidableEq, Repr

/-- The interactive loop over a sequence of input events, returning the
conversation history it accumulates (the exchanges passed to
`conversation.add_exchange`). -/
def interactive_mode (consult : String → String) :
    List InputEvent → List (String × String)
  | [] => []
  | .interrupt :: _ => []
  | .line raw :: rest =>
    match interactiveStep consult raw with
    | .exitLoop => []
    | .reprompt => interactive_mode consult rest
    | .converse q r => (q, r) :: interactive_mode consult rest

/-! ## Theorems -/

/-- C1: for every non-empty, non-whitespace request, `consult` on a
constructed Consultant Session never raises: it returns the backend's
answer when the backend succeeds, and on any backend failure it returns
the failure text prefixed with the error marker, also printing that
message before returning. -/
theorem consult_never_raises (agent : String → Except String String)
    (q : String) (h : ¬ isBlank q) :
    (AWSConsultant.consult agent q).1.isOk = true
    ∧ (∀ a, agent q = .ok a → AWSConsultant.consult agent q = (.ok a, []))
    ∧ (∀ e, agent q = .error e →
        AWSConsultant.consult agent q =
          (.ok (errorMarker ++ e), ["❌ " ++ (errorMarker ++ e)])) := by
  unfold AWSConsultant.consult AWSConsultantAgent.ask
  rw [if_neg h]
  cases hq : agent q with
  | ok a => simp [hq, Except.isOk, Except.toBool]
  | error e => simp [hq, Except.isOk, Except.toBool]

theorem consult_never_raises_witness :
    ¬ isBlank "What is S3?"
    ∧ (AWSConsultant.consult (fun _ => .error "boom") "What is S3?").1.isOk
        = true
    ∧ AWSConsultant.consult (fun _ => .error "boom") "What is S3?" =
        (.ok ("Error processing request: " ++ "boom"),
         ["❌ " ++ ("Error processing request: " ++ "boom")]) := by
  refine ⟨by decide, ?_, ?_⟩
  · exact (consult_never_raises (fun _ => .error "boom") "What is S3?"
      (by decide)).1
  · exact (consult_never_raises (fun _ => .error "boom") "What is S3?"
      (by decide)).2.2 "boom" rfl

/-- C2: the registry handed to the consultant (`all_tools`) is exactly the
per-provider concatenation in acquisition order with intra-provider order
preserved and no de-duplication (element multiplicities add up); in the
spec's instance — documentation with 2 capabilities, terraform with 3, the
other providers contributing none — the registry has 5 elements, the first
2 being documentation's list and the last 3 terraform's list. -/
theorem registry_is_ordered_concat (d t c p : List Tool) :
    (all_tools d t c p).length = d.length + t.length + c.length + p.length
    ∧ (all_tools d t c p).take d.length = d
    ∧ ((all_tools d t c p).drop d.length).take t.length = t
    ∧ (((all_tools d t c p).drop d.length).drop t.length).take c.length = c
    ∧ (((all_tools d t c p).drop d.length).drop t.length).drop c.length = p
    ∧ (∀ x, (all_tools d t c p).count x
        = d.count x + t.count x + c.count x + p.count x)
    ∧ (d.length = 2 → t.length = 3 → c = [] → p = [] →
        (all_tools d t c p).length = 5
        ∧ (all_tools d t c p).take 2 = d
        ∧ (all_tools d t c p).drop 2 = t) := by
  unfold all_tools
  simp only [List.append_assoc]
  refine ⟨by simp [Nat.add_assoc], List.take_left d _, ?_, ?_, ?_, ?_, ?_⟩
  · rw [List.drop_left]; exact List.take_left t _
  · rw [List.drop_left, List.drop_left]; exact List.take_left c _
  · rw [List.drop_left, List.drop_left, List.drop_left]
  · intro x; simp [List.count_append, Nat.add_assoc]
  · intro h2 h3 hc hp
    subst hc; subst hp
    simp only [List.append_nil]
    refine ⟨by rw [List.length_append, h2, h3], ?_, ?_⟩
    · rw [← h2]; exact List.take_left d t
    · rw [← h2]; exact List.drop_left d t

theorem registry_is_ordered_concat_witness :
    ([⟨"d1"⟩, ⟨"d2"⟩] : List Tool).length = 2
    ∧ ([⟨"t1"⟩, ⟨"t2"⟩, ⟨"t3"⟩] : List Tool).length = 3
    ∧ (all_tools [⟨"d1"⟩, ⟨"d2"⟩] [⟨"t1"⟩, ⟨"t2"⟩, ⟨"t3"⟩] [] []).length = 5
    ∧ (all_tools [⟨"d1"⟩, ⟨"d2"⟩] [⟨"t1"⟩, ⟨"t2"⟩, ⟨"t3"⟩] [] []).take 2
        = [⟨"d1"⟩, ⟨"d2"⟩]
    ∧ (all_tools [⟨"d1"⟩, ⟨"d2"⟩] [⟨"t1"⟩, ⟨"t2"⟩, ⟨"t3"⟩] [] []).drop 2
        = [⟨"t1"⟩, ⟨"t2"⟩, ⟨"t3"⟩] := by
  have h := (registry_is_ordered_concat [⟨"d1"⟩, ⟨"d2"⟩]
    [⟨"t1"⟩, ⟨"t2"⟩, ⟨"t3"⟩] [] []).2.2.2.2.2.2 rfl rfl rfl rfl
  exact ⟨rfl, rfl, h.1, h.2.1, h.2.2⟩

theorem startedNames_append (a b : List Event) :
    startedNames (a ++ b) = startedNames a ++ startedNames b := by
  simp [startedNames, List.filterMap_append]

theorem stoppedNames_append (a b : List Event) :
    stoppedNames (a ++ b) = stoppedNames a ++ stoppedNames b := by
  simp [stoppedNames, List.filterMap_append]

theorem startedNames_nil : startedNames [] = [] := rfl

theorem stoppedNames_nil : stoppedNames [] = [] := rfl

theorem startedNames_cons_started (n : String) (l : List Event) :
    startedNames (.started n :: l) = n :: startedNames l := by
  simp [startedNames]

theorem startedNames_cons_stopped (n : String) (l : List Event) :
    startedNames (.stopped n :: l) = startedNames l := by
  simp [startedNames]

theorem stoppedNames_cons_started (n : String) (l : List Event) :
    stoppedNames (.started n :: l) = stoppedNames l := by
  simp [stoppedNames]

theorem stoppedNames_cons_stopped (n : String) (l : List Event) :
    stoppedNames (.stopped n :: l) = n :: stoppedNames l := by
  simp [stoppedNames]

/-- The event trace of a nested-`with` run: the providers started are
exactly the prefix whose `__enter__` succeeds, and the stopped ones are
the same providers in reverse order. -/
theorem nestWith_trace (all ps : List ProviderSpec) :
    startedNames (nestWith all ps).1 = enteredProviders ps
    ∧ stoppedNames (nestWith all ps).1 = (enteredProviders ps).reverse := by
  induction ps with
  | nil => simp [nestWith, startedNames, stoppedNames, enteredProviders]
  | cons p rest ih =>
    by_cases hs : p.startOk = true
    · constructor
      · simp [nestWith, hs, enteredProviders, startedNames_append,
          startedNames_cons_started, startedNames_cons_stopped,
          startedNames_nil, ih.1]
      · simp [nestWith, hs, enteredProviders, stoppedNames_append,
          stoppedNames_cons_started, stoppedNames_cons_stopped,
          stoppedNames_nil, ih.2]
    · simp [nestWith, hs, enteredProviders, startedNames_nil, stoppedNames_nil]

/-- Enumerating all providers succeeds iff each `list_tools` call does. -/
theorem listAllTools_isOk (ps : List ProviderSpec) :
    (listAllTools ps).isOk = ps.all fun p => p.tools.isOk := by
  induction ps with
  | nil => rfl
  | cons p rest ih =>
    cases hp : p.tools with
    | error e => simp [listAllTools, hp, Except.isOk, Except.toBool]
    | ok ts =>
      cases hr : listAllTools rest with
      | error e =>
        simp only [listAllTools, hp, hr, List.all_cons, ← ih]
        rfl
      | ok acc =>
        simp only [listAllTools, hp, hr, List.all_cons, ← ih]
        rfl

/-- A nested-`with` run succeeds iff every provider starts and the body
(enumerating `all`) succeeds. -/
theorem nestWith_isOk (all ps : List ProviderSpec) :
    (nestWith all ps).2.isOk =
      ((ps.all fun p => p.startOk) && (listAllTools all).isOk) := by
  induction ps with
  | nil => simp [nestWith]
  | cons p rest ih =>
    by_cases hs : p.startOk = true
    · simp [nestWith, hs, ih]
    · simp [nestWith, hs, Except.isOk, Except.toBool]

/-- C3: bulk provider acquisition is all-or-nothing.  On every run the
stopped-session sequence is exactly the started-session sequence in
reverse order (so every started session is stopped, on success and on
failure alike); the run succeeds iff every provider starts and
enumerates; and when some provider fails, the failure propagates as an
error after every started session has been stopped. -/
theorem acquisition_all_or_nothing (ps : List ProviderSpec) :
    stoppedNames (runAcquisition ps).1 =
      (startedNames (runAcquisition ps).1).reverse
    ∧ ((runAcquisition ps).2.isOk = true ↔
        ∀ p ∈ ps, p.startOk = true ∧ p.tools.isOk = true)
    ∧ ((¬ ∀ p ∈ ps, p.startOk = true ∧ p.tools.isOk = true) →
        (∃ e, (runAcquisition ps).2 = Except.error e)
        ∧ ∀ n, n ∈ startedNames (runAcquisition ps).1 →
            n ∈ stoppedNames (runAcquisition ps).1) := by
  have htrace := nestWith_trace ps ps
  have hrev : stoppedNames (runAcquisition ps).1 =
      (startedNames (runAcquisition ps).1).reverse := by
    unfold runAcquisition
    rw [htrace.1, htrace.2]
  have hok : (runAcquisition ps).2.isOk = true ↔
      ∀ p ∈ ps, p.startOk = true ∧ p.tools.isOk = true := by
    unfold runAcquisition
    rw [nestWith_isOk, listAllTools_isOk]
    simp only [Bool.and_eq_true, List.all_eq_true]
    exact ⟨fun h p hp => ⟨h.1 p hp, h.2 p hp⟩,
           fun h => ⟨fun p hp => (h p hp).1, fun p hp => (h p hp).2⟩⟩
  refine ⟨hrev, hok, fun hfail => ⟨?_, fun n hn => ?_⟩⟩
  · cases hres : (runAcquisition ps).2 with
    | error e => exact ⟨e, rfl⟩
    | ok v =>
      exact absurd (hok.1 (by rw [hres]; rfl)) hfail
  · rw [hrev, List.mem_reverse]
    exact hn

theorem acquisition_all_or_nothing_witness :
    (¬ ∀ p ∈ cdkFailureScenario, p.startOk = true ∧ p.tools.isOk = true)
    ∧ (∃ e, (runAcquisition cdkFailureScenario).2 = Except.error e)
    ∧ stoppedNames (runAcquisition cdkFailureScenario).1 =
        (startedNames (runAcquisition cdkFailureScenario).1).reverse
    ∧ startedNames (runAcquisition cdkFailureScenario).1 =
        ["documentation", "terraform"]
    ∧ stoppedNames (runAcquisition cdkFailureScenario).1 =
        ["terraform", "documentation"] := by
  have h := acquisition_all_or_nothing cdkFailureScenario
  have hfail : ¬ ∀ p ∈ cdkFailureScenario,
      p.startOk = true ∧ p.tools.isOk = true := by
    intro hall
    exact absurd (hall ⟨"cdk", false, .ok []⟩ (by simp [cdkFailureScenario])).1
      (by simp)
  exact ⟨hfail, (h.2.2 hfail).1, h.1, rfl, rfl⟩

/-- C4: for every empty or whitespace-only request, `consult` fails
synchronously with the validation error (the spec's `ConfigError`, a
`ValueError` in the code), and the backend is not invoked: the outcome is
the same for every backend. -/
theorem consult_blank_rejected (agent : String → Except String String)
    (q : String) (h : isBlank q) :
    AWSConsultant.consult agent q =
      (.error (.valueError "question cannot be empty"), [])
    ∧ (∀ agent2, AWSConsultant.consult agent q =
        AWSConsultant.consult agent2 q) := by
  unfold AWSConsultant.consult AWSConsultantAgent.ask
  rw [if_pos h]
  exact ⟨rfl, fun agent2 => by rw [if_pos h]⟩

theorem consult_blank_rejected_witness :
    isBlank "   "
    ∧ AWSConsultant.consult (fun _ => .ok "never") "   " =
        (.error (.valueError "question cannot be empty"), []) :=
  ⟨by decide, (consult_blank_rejected (fun _ => .ok "never") "   "
    (by decide)).1⟩

/-- C5: constructing a Consultant Session succeeds for every non-empty,
non-whitespace-only system prompt (storing that prompt) and fails with the
validation error for every empty or whitespace-only prompt, on every
invocation. -/
theorem init_validates_prompt (p : String) (tools : Option (List Tool))
    (model : Option Model) :
    (¬ isBlank p → ∃ a, AWSConsultantAgent.init p tools model = .ok a
        ∧ a.system_prompt = p)
    ∧ (isBlank p → AWSConsultantAgent.init p tools model =
        .error (.valueError "system_prompt cannot be empty")) := by
  constructor
  · intro h
    exact ⟨_, by unfold AWSConsultantAgent.init; rw [if_neg h], rfl⟩
  · intro h
    unfold AWSConsultantAgent.init
    rw [if_pos h]

theorem init_validates_prompt_witness :
    (¬ isBlank "You are an AWS consultant."
      ∧ ∃ a, AWSConsultantAgent.init "You are an AWS consultant." none none
          = .ok a ∧ a.system_prompt = "You are an AWS consultant.")
    ∧ (isBlank " "
      ∧ AWSConsultantAgent.init " " none none =
          .error (.valueError "system_prompt cannot be empty")) :=
  ⟨⟨by decide, (init_validates_prompt "You are an AWS consultant." none
      none).1 (by decide)⟩,
   ⟨by decide, (init_validates_prompt " " none none).2 (by decide)⟩⟩

/-- C6 counterexample: the claim says the flag value is used whenever the
flag is given, and that the resolved profile is passed into the providers'
environment mappings.  With the flag given as the empty string and
`AWS_PROFILE` set to `"prod"`, Python's `or` skips the falsy flag value and
resolves `"prod"`, not the given flag value `""`; and the `cdk` provider's
environment mapping carries no `AWS_PROFILE` entry at all. -/
theorem awsProfile_claim_counterexample :
    resolveAwsProfile (some "") (some "prod") = "prod"
    ∧ ("prod" : String) ≠ ""
    ∧ ((get_mcp_servers_with_profile "prod").lookup "cdk").map
        (fun c => c.env.lookup "AWS_PROFILE") = some none := by
  exact ⟨rfl, by decide, by decide⟩

/-- C6 (amended): the effective AWS profile is the `--aws-profile` flag
value when the flag is given with a non-empty value; otherwise the
`AWS_PROFILE` environment variable when set; otherwise `"default"`.  The
resolved profile is passed into the provider-configuration builder, which
stores it under `AWS_PROFILE` in the pricing provider's environment
mapping (the other providers' environments do not receive it). -/
theorem awsProfile_resolution (flag envP : Option String) :
    (∀ f, flag = some f → f ≠ "" → resolveAwsProfile flag envP = f)
    ∧ ((flag = none ∨ flag = some "") →
        (∀ e, envP = some e → resolveAwsProfile flag envP = e)
        ∧ (envP = none → resolveAwsProfile flag envP = "default"))
    ∧ ((get_mcp_servers_with_profile (resolveAwsProfile flag envP)).lookup
        "pricing").map (fun c => c.env.lookup "AWS_PROFILE")
        = some (some (resolveAwsProfile flag envP)) := by
  refine ⟨?_, ?_, ?_⟩
  · intro f hf hne
    subst hf
    simp [resolveAwsProfile, hne]
  · intro hflag
    constructor
    · intro e he
      subst he
      rcases hflag with h | h <;> subst h <;> simp [resolveAwsProfile]
    · intro he
      subst he
      rcases hflag with h | h <;> subst h <;> simp [resolveAwsProfile]
  · simp [get_mcp_servers_with_profile, List.lookup]

theorem awsProfile_resolution_witness :
    ((some "prod" : Option String) = some "prod" ∧ "prod" ≠ ""
      ∧ resolveAwsProfile (some "prod") none = "prod")
    ∧ ((none : Option String) = none
      ∧ resolveAwsProfile none (some "team") = "team"
      ∧ resolveAwsProfile none none = "default") := by
  refine ⟨⟨rfl, by decide, ?_⟩, rfl, ?_, ?_⟩
  · exact (awsProfile_resolution (some "prod") none).1 "prod" rfl (by decide)
  · exact ((awsProfile_resolution none (some "team")).2.1 (Or.inl rfl)).1
      "team" rfl
  · exact ((awsProfile_resolution none none).2.1 (Or.inl rfl)).2 rfl

/-- C7 counterexample: a failure creating the output directory propagates
out of `save_conversation` instead of being caught and converted to a
printed warning with a `None` return: `Path("outputs").mkdir(exist_ok=True)`
runs before the `try` block. -/
theorem flush_mkdir_failure_counterexample :
    save_conversation [⟨"u", "a", 0⟩] none 0 (.error "Permission denied")
      (.ok ()) = .error "Permission denied" := rfl

/-- C7 (amended): once the output directory step succeeds, flush never
raises: an I/O failure while writing the transcript file is caught, a
warning is printed, and `None` is returned; a failure creating the output
directory, however, propagates out of the flush (and `main`'s top-level
handler then returns exit code 1). -/
theorem flush_write_failure_caught (history : List Exchange)
    (filename : Option String) (now : Nat) (wr : Except String Unit) :
    (save_conversation history filename now (.ok ()) wr).isOk = true
    ∧ (∀ e, history ≠ [] → wr = .error e →
        save_conversation history filename now (.ok ()) wr =
          .ok { returned := none, written := none,
                warnings := ["\n⚠️  Warning: Could not save conversation: "
                              ++ e] }) := by
  constructor
  · cases history with
    | nil => rfl
    | cons x xs =>
      cases wr with
      | ok u => rfl
      | error e => rfl
  · intro e hne hwr
    subst hwr
    cases history with
    | nil => exact absurd rfl hne
    | cons x xs => rfl

theorem flush_write_failure_caught_witness :
    ([⟨"q", "r", 5⟩] : List Exchange) ≠ []
    ∧ save_conversation [⟨"q", "r", 5⟩] none 5 (.ok ()) (.error "disk full")
        = .ok { returned := none, written := none,
                warnings := ["\n⚠️  Warning: Could not save conversation: "
                              ++ "disk full"] } :=
  ⟨by decide,
   (flush_write_failure_caught [⟨"q", "r", 5⟩] none 5
     (.error "disk full")).2 "disk full" (by decide) rfl⟩

/-- C9: flushing an empty conversation log returns `None` and writes no
file, whatever the I/O environment; flushing a log holding exactly one
exchange writes exactly one file whose content is the header, then exactly
one exchange block numbered 1 carrying the literal user and assistant
texts, then the footer. -/
theorem flush_empty_and_single (filename : Option String)
    (mk wr : Except String Unit) (now ts : Nat) (u a : String) :
    save_conversation [] filename now mk wr =
      .ok { returned := none, written := none, warnings := [] }
    ∧ save_conversation [⟨u, a, ts⟩] none now (.ok ()) (.ok ()) =
        .ok { returned := some ("outputs/"
                ++ ("aws_consultation_" ++ toString now ++ ".txt")),
              written := some (transcriptContent [⟨u, a, ts⟩]),
              warnings := [] }
    ∧ transcriptContent [⟨u, a, ts⟩] =
        headerText ++ exchangeBlock 1 ⟨u, a, ts⟩ ++ footerText
    ∧ (∃ pre post, transcriptContent [⟨u, a, ts⟩] = pre ++ u ++ post)
    ∧ (∃ pre post, transcriptContent [⟨u, a, ts⟩] = pre ++ a ++ post) := by
  refine ⟨rfl, rfl, ?_, ?_, ?_⟩
  · simp [transcriptContent, exchangeBlocks, String.append_empty]
  · refine ⟨headerText ++ "\n" ++ eq80 ++ "\n" ++ "Exchange "
      ++ toString 1 ++ "\n" ++ eq80 ++ "\n\n" ++ "USER:\n",
      "\n\n" ++ "CONSULTANT:\n" ++ a ++ "\n" ++ footerText, ?_⟩
    simp [transcriptContent, exchangeBlocks, exchangeBlock,
      String.append_empty, String.append_assoc]
  · refine ⟨headerText ++ "\n" ++ eq80 ++ "\n" ++ "Exchange "
      ++ toString 1 ++ "\n" ++ eq80 ++ "\n\n" ++ "USER:\n" ++ u
      ++ "\n\n" ++ "CONSULTANT:\n", "\n" ++ footerText, ?_⟩
    simp [transcriptContent, exchangeBlocks, exchangeBlock,
      String.append_empty, String.append_assoc]

theorem flush_empty_and_single_witness :
    save_conversation [] none 3 (.error "any") (.error "any") =
      .ok { returned := none, written := none, warnings := [] }
    ∧ save_conversation [⟨"my question", "my answer", 3⟩] none 3
        (.ok ()) (.ok ()) =
        .ok { returned := some ("outputs/"
                ++ ("aws_consultation_" ++ toString 3 ++ ".txt")),
              written := some
                (transcriptContent [⟨"my question", "my answer", 3⟩]),
              warnings := [] }
    ∧ (∃ pre post, transcriptContent [⟨"my question", "my answer", 3⟩] =
        pre ++ "my question" ++ post) := by
  have h := flush_empty_and_single none (.error "any") (.error "any") 3 3
    "my question" "my answer"
  exact ⟨h.1, h.2.1, h.2.2.2.1⟩

/-- C8: an input line that strips to an exit token (case-insensitively)
terminates the interactive loop without calling `consult`; a line that
strips to the empty string re-prompts without calling `consult` and
without appending to the conversation log. -/
theorem interactive_exit_and_blank (raw : String)
    (consult : String → String) (rest : List InputEvent) :
    (pyLower (pyStrip raw) ∈ exitTokens →
        (∀ c : String → String, interactiveStep c raw = .exitLoop)
        ∧ interactive_mode consult (.line raw :: rest) = [])
    ∧ (pyStrip raw = "" →
        (∀ c : String → String, interactiveStep c raw = .reprompt)
        ∧ interactive_mode consult (.line raw :: rest) =
            interactive_mode consult rest) := by
  constructor
  · intro h
    have hstep : ∀ c : String → String, interactiveStep c raw = .exitLoop :=
      fun c => by
        simp only [interactiveStep]
        rw [if_pos h]
    refine ⟨hstep, ?_⟩
    simp only [interactive_mode]
    rw [hstep consult]
  · intro h
    have hnot : pyLower (pyStrip raw) ∉ exitTokens := by
      rw [h]
      decide
    have hstep : ∀ c : String → String, interactiveStep c raw = .reprompt :=
      fun c => by
        simp only [interactiveStep]
        rw [if_neg hnot, if_pos h]
    refine ⟨hstep, ?_⟩
    simp only [interactive_mode]
    rw [hstep consult]

theorem interactive_exit_and_blank_witness :
    (pyLower (pyStrip " Quit ") ∈ exitTokens
      ∧ interactive_mode (fun q => "R:" ++ q)
          [.line " Quit ", .line "next"] = [])
    ∧ (pyStrip "   " = ""
      ∧ interactive_mode (fun q => "R:" ++ q) [.line "   ", .line "q"] =
          interactive_mode (fun q => "R:" ++ q) [.line "q"]) := by
  constructor
  · exact ⟨by decide, ((interactive_exit_and_blank " Quit "
      (fun q => "R:" ++ q) [.line "next"]).1 (by decide)).2⟩
  · exact ⟨by decide, ((interactive_exit_and_blank "   "
      (fun q => "R:" ++ q) [.line "q"]).2 (by decide)).2⟩

/-- C10: constructing the agent with tools omitted/`None` or with an empty
list succeeds (for a valid prompt), stores the empty list — never `None` —
so both string representations report 0 tools; and for every construction
the stored tools value is the list `pyToolsOr tools`. -/
theorem init_tools_default (p : String) (model : Option Model)
    (h : ¬ isBlank p) :
    (∃ a, AWSConsultantAgent.init p none model = .ok a ∧ a.tools = []
        ∧ a.reprStr = "AWSConsultantAgent(" ++ modelInfo model
            ++ ", tools=0)"
        ∧ ∃ mn, a.strStr = "AWS Consultant Agent (" ++ mn
            ++ ") with 0 MCP tool(s)")
    ∧ (∃ a, AWSConsultantAgent.init p (some []) model = .ok a
        ∧ a.tools = [])
    ∧ (∀ tools a, AWSConsultantAgent.init p tools model = .ok a →
        a.tools = pyToolsOr tools) := by
  have hinit : ∀ tools, AWSConsultantAgent.init p tools model =
      .ok { system_prompt := p, tools := pyToolsOr tools, model := model } :=
    fun tools => by unfold AWSConsultantAgent.init; rw [if_neg h]
  refine ⟨⟨_, hinit none, rfl, ?_, ?_⟩, ⟨_, hinit (some []), rfl⟩, ?_⟩
  · simp [AWSConsultantAgent.reprStr, pyToolsOr, String.append_assoc,
      show (toString (0 : Nat)) = "0" from rfl]
  · cases model with
    | none =>
      exact ⟨"Anthropic", by
        simp [AWSConsultantAgent.strStr, pyToolsOr, String.append_assoc,
          show (toString (0 : Nat)) = "0" from rfl]⟩
    | some m =>
      exact ⟨m.className, by
        simp [AWSConsultantAgent.strStr, pyToolsOr, String.append_assoc,
          show (toString (0 : Nat)) = "0" from rfl]⟩
  · intro tools a ha
    rw [hinit tools] at ha
    cases ha
    rfl

theorem init_tools_default_witness :
    ¬ isBlank "prompt"
    ∧ (∃ a, AWSConsultantAgent.init "prompt" none none = .ok a
        ∧ a.tools = []
        ∧ a.reprStr = "AWSConsultantAgent(" ++ modelInfo none
            ++ ", tools=0)"
        ∧ ∃ mn, a.strStr = "AWS Consultant Agent (" ++ mn
            ++ ") with 0 MCP tool(s)") :=
  ⟨by decide, (init_tools_default "prompt" none (by decide)).1⟩

end AwsAdvisor
